import Mathlib

/-!
Verification of the OSPF header dissector of `jspcap/link/ospf.py`.

The decoder is shallowly embedded: bytes are `Nat` values (each < 256 on the
wire, though nothing below depends on that bound), a Python `bytes` object is
a `List Nat`, and the sequential file reads of the source become explicit
state passing over a `ByteCursor`.  The byte-reading primitives
(`_read_unpack`, `_read_fileng`) and the layer-chaining step
(`_read_next_layer`) live in files of the repository that are not among the
sources; they are modelled from the specification (sections 4.1 and 4.4) and
marked as such.  Everything else is translated from `ospf.py`.
-/

/-- A decode failure: a read that cannot satisfy its byte count.
Modelled from the spec: section 7's `TruncatedInput`, the only fatal
failure of a dissection call. -/
inductive DecodeError where
  | TruncatedInput
deriving Repr, DecidableEq

/-- Modelled from the spec: section 3's ByteCursor, a sequential forward-only
reader over a fixed byte buffer tracking a position, with invariant
`0 ≤ position ≤ len(buffer)` maintained by the read operations. -/
structure ByteCursor where
  buffer : List Nat
  position : Nat
deriving Repr, DecidableEq

/-- Modelled from the spec: section 4.1 `remaining()`, the count
`len(buffer) - position` (non-negative). -/
def ByteCursor.remaining (c : ByteCursor) : Nat :=
  c.buffer.length - c.position

/-- Modelled from the spec: section 4.1 `read(n)` — returns the next `n`
bytes and advances the position by `n`; fails with `TruncatedInput` when
fewer than `n` bytes remain.  This is the embedding of the source's
`self._read_fileng(n)` primitive, whose definition is outside the given
sources. -/
def ByteCursor.read_fileng (c : ByteCursor) (n : Nat) :
    Except DecodeError (List Nat × ByteCursor) :=
  if c.position + n ≤ c.buffer.length then
    .ok ((c.buffer.drop c.position).take n, ⟨c.buffer, c.position + n⟩)
  else
    .error .TruncatedInput

/-- Big-endian interpretation of a byte sequence as an unsigned integer. -/
def bytesToUint (bs : List Nat) : Nat :=
  bs.foldl (fun acc b => acc * 256 + b) 0

/-- Modelled from the spec: section 4.1 `read_uint(n)` — reads `n` bytes and
interprets them as an unsigned big-endian integer, failing with
`TruncatedInput` exactly when `read` does.  This is the embedding of the
source's `self._read_unpack(n)` primitive, whose definition is outside the
given sources. -/
def ByteCursor.read_unpack (c : ByteCursor) (n : Nat) :
    Except DecodeError (Nat × ByteCursor) :=
  match c.read_fileng n with
  | .ok (bs, c') => .ok (bytesToUint bs, c')
  | .error e => .error e

/-- A decoded field value: the spec's FieldValue tagged union (section 3).
`pynone` embeds Python's `None`, which `TYPE.get` produces for unmapped
packet-type codes. -/
inductive FieldValue where
  | uint (n : Nat)
  | str (s : String)
  | bytes (bs : List Nat)
  | pynone
  | record (fields : List (String × FieldValue))

/-- Ordered field-name/value mapping: the insertion-ordered `dict` the
source builds (spec section 3's FieldRecord). -/
abbrev FieldRecord := List (String × FieldValue)

/-- Key lookup in a FieldRecord: first binding wins, as in a Python dict
where each key is inserted once. -/
def getField (k : String) : FieldRecord → Option FieldValue
  | [] => none
  | (k', v) :: rest => if k' = k then some v else getField k rest

/-- The key list of a FieldRecord, in insertion order. -/
def recordKeys (r : FieldRecord) : List String :=
  r.map Prod.fst

/-- OSPF packet-type table, `TYPE` in `ospf.py` (lines 14-20), accessed via
`dict.get`, hence `Option`-valued with `none` for unmapped codes. -/
def TYPE : Nat → Option String
  | 1 => some "Hello"
  | 2 => some "Database Description"
  | 3 => some "Link State Request"
  | 4 => some "Link State Update"
  | 5 => some "Link State Acknowledgment"
  | _ => none

/-- OSPF authentication-type table, `AUTH` in `ospf.py` (lines 24-28). -/
def AUTH : Nat → Option String
  | 0 => some "Null Authentication"
  | 1 => some "Simple Password"
  | 2 => some "Cryptographic Authentication"
  | _ => none

/-- Python's `x or y` specialised to `x : Option String`: `None` and the
empty string are falsy, any other string is truthy and returned as-is.
Embeds line 124's `AUTH.get(_autp) or 'Reserved'` fallback idiom. -/
def pyOrString (x : Option String) (d : String) : String :=
  match x with
  | some s => if s = "" then d else s
  | none => d

/-- Python's `TYPE.get(_type)` result stored straight into the dict:
a hit stores the name, a miss stores `None`. -/
def optionToField (o : Option String) : FieldValue :=
  match o with
  | some s => FieldValue.str s
  | none => FieldValue.pynone

/-- Python's `sep.join(strings)`. -/
def pyJoin (sep : String) : List String → String
  | [] => ""
  | [s] => s
  | s :: rest => s ++ sep ++ pyJoin sep rest

/-- `OSPF._read_id_numbers` (lines 134-137): read 4 bytes and render them
as the period-joined decimal strings of the octets. -/
def ByteCursor.read_id_numbers (c : ByteCursor) :
    Except DecodeError (String × ByteCursor) :=
  match c.read_fileng 4 with
  | .ok (bs, c') => .ok (pyJoin "." (bs.map toString), c')
  | .error e => .error e

/-- `OSPF._read_encrypt_auth` (lines 139-171): the cryptographic
authentication sub-layout, 2 raw bytes + 1-byte uint + 1-byte uint +
4-byte uint, assembled into a nested record. -/
def read_encrypt_auth (c : ByteCursor) :
    Except DecodeError (FieldRecord × ByteCursor) :=
  match c.read_fileng 2 with
  | .error e => .error e
  | .ok (resv, c) =>
  match c.read_unpack 1 with
  | .error e => .error e
  | .ok (keys, c) =>
  match c.read_unpack 1 with
  | .error e => .error e
  | .ok (alen, c) =>
  match c.read_unpack 4 with
  | .error e => .error e
  | .ok (seqn, c) =>
    .ok ([("resv", FieldValue.bytes resv),
          ("key_id", FieldValue.uint keys),
          ("len", FieldValue.uint alen),
          ("seq", FieldValue.uint seqn)], c)

/-- `OSPF.read_ospf`, lines 109-130: the field reads and dict assembly,
up to but not including the `_read_next_layer` hand-off of line 132. -/
def read_ospf_fields (c : ByteCursor) :
    Except DecodeError (FieldRecord × ByteCursor) :=
  match c.read_unpack 1 with
  | .error e => .error e
  | .ok (vers, c) =>
  match c.read_unpack 1 with
  | .error e => .error e
  | .ok (ty, c) =>
  match c.read_unpack 2 with
  | .error e => .error e
  | .ok (tlen, c) =>
  match c.read_id_numbers with
  | .error e => .error e
  | .ok (rtid, c) =>
  match c.read_id_numbers with
  | .error e => .error e
  | .ok (area, c) =>
  match c.read_fileng 2 with
  | .error e => .error e
  | .ok (csum, c) =>
  match c.read_unpack 2 with
  | .error e => .error e
  | .ok (autp, c) =>
    let base : FieldRecord :=
      [("version", FieldValue.uint vers),
       ("type", optionToField (TYPE ty)),
       ("len", FieldValue.uint tlen),
       ("router_id", FieldValue.str rtid),
       ("area_id", FieldValue.str area),
       ("chksum", FieldValue.bytes csum),
       ("autype", FieldValue.str (pyOrString (AUTH autp) "Reserved"))]
    if autp = 2 then
      match read_encrypt_auth c with
      | .error e => .error e
      | .ok (auth, c) => .ok (base ++ [("auth", FieldValue.record auth)], c)
    else
      match c.read_fileng 8 with
      | .error e => .error e
      | .ok (auth, c) => .ok (base ++ [("auth", FieldValue.bytes auth)], c)

/-- Modelled from the spec: `self._read_next_layer(ospf)` (line 132) lives
in the `Link`/`Protocol` base classes, which are outside the given sources.
Section 4.4: after the dissector returns, the chain inspects `remaining()`;
with zero bytes remaining the slot is omitted, otherwise (no next-layer
dissector being declared for OSPF in the given sources) the remaining raw
bytes are attached verbatim under a reserved trailing slot. -/
def read_next_layer (ospf : FieldRecord) (c : ByteCursor) :
    FieldRecord × ByteCursor :=
  if c.remaining = 0 then
    (ospf, c)
  else
    (ospf ++ [("next_layer", FieldValue.bytes (c.buffer.drop c.position))],
     ⟨c.buffer, c.buffer.length⟩)

/-- `OSPF.read_ospf` in full (lines 109-132): field decode followed by the
layer-chain hand-off. -/
def read_ospf (c : ByteCursor) : Except DecodeError (FieldRecord × ByteCursor) :=
  match read_ospf_fields c with
  | .ok (ospf, c') => .ok (read_next_layer ospf c')
  | .error e => .error e

/-- The `OSPF` protocol object: `self._info` holds the decoded record. -/
structure OSPF where
  info : FieldRecord

/-- `OSPF.__init__` (lines 63-65): run the decode and wrap the record;
a decode failure propagates and no object is produced. -/
def OSPF.init (c : ByteCursor) : Except DecodeError (OSPF × ByteCursor) :=
  match read_ospf c with
  | .ok (info, c') => .ok (⟨info⟩, c')
  | .error e => .error e

/-- The `OSPF.length` property (lines 47-49): the literal constant 24,
independent of the decoded record. -/
def OSPF.length (_self : OSPF) : Nat := 24

/-- `OSPF.__len__` (lines 67-68): also the literal constant 24. -/
def OSPF.lenOp (_self : OSPF) : Nat := 24

/-! ## Slice helpers used to state the decoded values -/

/-- The `n` bytes of `buf` starting at offset `p`. -/
def sliceAt (buf : List Nat) (p n : Nat) : List Nat :=
  (buf.drop p).take n

/-- The big-endian unsigned integer held in the `n` bytes at offset `p`. -/
def uintAt (buf : List Nat) (p n : Nat) : Nat :=
  bytesToUint (sliceAt buf p n)

/-- Dotted-quad rendering of the 4 bytes at offset `p`. -/
def dottedQuadAt (buf : List Nat) (p : Nat) : String :=
  pyJoin "." ((sliceAt buf p 4).map toString)

/-- The `auth` value produced from a buffer decoded from offset 0. -/
def ospfAuthField (buf : List Nat) : FieldValue :=
  if uintAt buf 14 2 = 2 then
    FieldValue.record
      [("resv", FieldValue.bytes (sliceAt buf 16 2)),
       ("key_id", FieldValue.uint (uintAt buf 18 1)),
       ("len", FieldValue.uint (uintAt buf 19 1)),
       ("seq", FieldValue.uint (uintAt buf 20 4))]
  else
    FieldValue.bytes (sliceAt buf 16 8)

/-- The record produced by `read_ospf_fields` from offset 0 of a buffer of
at least 24 bytes, field by field. -/
def ospfRecord (buf : List Nat) : FieldRecord :=
  [("version", FieldValue.uint (uintAt buf 0 1)),
   ("type", optionToField (TYPE (uintAt buf 1 1))),
   ("len", FieldValue.uint (uintAt buf 2 2)),
   ("router_id", FieldValue.str (dottedQuadAt buf 4)),
   ("area_id", FieldValue.str (dottedQuadAt buf 8)),
   ("chksum", FieldValue.bytes (sliceAt buf 12 2)),
   ("autype", FieldValue.str (pyOrString (AUTH (uintAt buf 14 2)) "Reserved")),
   ("auth", ospfAuthField buf)]

/-! ## Whole-pipeline accessors -/

/-- The record produced by running the full `read_ospf` pipeline on a fresh
cursor over `buf`, or `none` on a decode failure. -/
def decodeRecord (buf : List Nat) : Option FieldRecord :=
  match read_ospf ⟨buf, 0⟩ with
  | .ok (r, _) => some r
  | .error _ => none

/-- One field of the decoded record. -/
def decodedField (k : String) (buf : List Nat) : Option FieldValue :=
  (decodeRecord buf).bind (getField k)

/-- The ordered key list of the decoded record. -/
def decodedKeys (buf : List Nat) : Option (List String) :=
  (decodeRecord buf).map recordKeys

/-- The `length` the dissector reports to its caller after a decode of
`buf`, via the `OSPF.length` property. -/
def reportedLength (buf : List Nat) : Option Nat :=
  match OSPF.init ⟨buf, 0⟩ with
  | .ok (o, _) => some o.length
  | .error _ => none

/-- The cursor position after the field decode of `read_ospf` (lines
109-130), i.e. the bytes the dissector itself consumed. -/
def fieldsConsumed (buf : List Nat) : Option Nat :=
  match read_ospf_fields ⟨buf, 0⟩ with
  | .ok (_, c') => some c'.position
  | .error _ => none

/-! ## Concrete buffers used as witnesses and counterexamples -/

/-- The spec's section 8 scenario: version 2, type 1 (`Hello`), declared
length 44, router id 192.0.2.1, area id 0.0.0.1, autype 0, opaque auth. -/
def buf24null : List Nat :=
  [2, 1, 0, 44, 192, 0, 2, 1, 0, 0, 0, 1, 171, 205, 0, 0,
   222, 173, 190, 239, 202, 254, 186, 190]

/-- Same header with autype 2: the cryptographic-authentication variant
(resv 0·0, key id 5, auth data length 16, sequence number 1). -/
def buf24crypto : List Nat :=
  [2, 1, 0, 44, 192, 0, 2, 1, 0, 0, 0, 1, 171, 205, 0, 2,
   0, 0, 5, 16, 0, 0, 0, 1]

/-- Same header with the unmapped packet-type code 7. -/
def bufType7 : List Nat :=
  [2, 7, 0, 44, 192, 0, 2, 1, 0, 0, 0, 1, 171, 205, 0, 0,
   222, 173, 190, 239, 202, 254, 186, 190]

/-- Same header with the unmapped authentication-type code 99. -/
def bufAu99 : List Nat :=
  [2, 1, 0, 44, 192, 0, 2, 1, 0, 0, 0, 1, 171, 205, 0, 99,
   222, 173, 190, 239, 202, 254, 186, 190]

/-- A 25-byte buffer: the section 8 scenario plus one trailing byte. -/
def buf25 : List Nat := buf24null ++ [0]

/-- A 10-byte truncated buffer. -/
def buf10 : List Nat := [2, 1, 0, 44, 192, 0, 2, 1, 0, 0]

/-! ## The decode normal form -/

/-- On a buffer holding at least 24 bytes, the field decode succeeds,
produces exactly the record `ospfRecord buf`, and leaves the cursor at
position 24. -/
theorem read_ospf_fields_eq (buf : List Nat) (h : 24 ≤ buf.length) :
    read_ospf_fields ⟨buf, 0⟩ = .ok (ospfRecord buf, ⟨buf, 24⟩) := by
  have h1 : 1 ≤ buf.length := by omega
  have h2 : 2 ≤ buf.length := by omega
  have h4 : 4 ≤ buf.length := by omega
  have h8 : 8 ≤ buf.length := by omega
  have h12 : 12 ≤ buf.length := by omega
  have h14 : 14 ≤ buf.length := by omega
  have h16 : 16 ≤ buf.length := by omega
  have h18 : 18 ≤ buf.length := by omega
  have h19 : 19 ≤ buf.length := by omega
  have h20 : 20 ≤ buf.length := by omega
  simp [read_ospf_fields, ByteCursor.read_unpack, ByteCursor.read_fileng,
        ByteCursor.read_id_numbers, read_encrypt_auth, ospfRecord,
        ospfAuthField, uintAt, sliceAt, dottedQuadAt,
        h1, h2, h4, h8, h12, h14, h16, h18, h19, h20, h]
  split <;> rename_i hc <;> simp [hc]

/-! ## Inversion: a successful read implies the bytes were available -/

theorem read_fileng_ok (c : ByteCursor) (n : Nat) (bs : List Nat) (c' : ByteCursor)
    (h : c.read_fileng n = .ok (bs, c')) :
    c.position + n ≤ c.buffer.length ∧ c'.buffer = c.buffer ∧
      c'.position = c.position + n := by
  unfold ByteCursor.read_fileng at h
  split at h
  · rename_i hle
    simp only [Except.ok.injEq, Prod.mk.injEq] at h
    exact ⟨hle, by rw [← h.2], by rw [← h.2]⟩
  · simp at h

theorem read_unpack_ok (c : ByteCursor) (n : Nat) (v : Nat) (c' : ByteCursor)
    (h : c.read_unpack n = .ok (v, c')) :
    c.position + n ≤ c.buffer.length ∧ c'.buffer = c.buffer ∧
      c'.position = c.position + n := by
  unfold ByteCursor.read_unpack at h
  split at h
  · rename_i bs c0 heq
    simp only [Except.ok.injEq, Prod.mk.injEq] at h
    have := read_fileng_ok c n bs c0 heq
    rw [← h.2]
    exact this
  · simp at h

theorem read_id_numbers_ok (c : ByteCursor) (s : String) (c' : ByteCursor)
    (h : c.read_id_numbers = .ok (s, c')) :
    c.position + 4 ≤ c.buffer.length ∧ c'.buffer = c.buffer ∧
      c'.position = c.position + 4 := by
  unfold ByteCursor.read_id_numbers at h
  split at h
  · rename_i bs c0 heq
    simp only [Except.ok.injEq, Prod.mk.injEq] at h
    have := read_fileng_ok c 4 bs c0 heq
    rw [← h.2]
    exact this
  · simp at h

theorem read_encrypt_auth_ok (c : ByteCursor) (r : FieldRecord) (c' : ByteCursor)
    (h : read_encrypt_auth c = .ok (r, c')) :
    c.position + 8 ≤ c.buffer.length ∧ c'.buffer = c.buffer ∧
      c'.position = c.position + 8 := by
  unfold read_encrypt_auth at h
  split at h
  · simp at h
  rename_i resv c1 h1
  split at h
  · simp at h
  rename_i keys c2 h2
  split at h
  · simp at h
  rename_i alen c3 h3
  split at h
  · simp at h
  rename_i seqn c4 h4
  simp only [Except.ok.injEq, Prod.mk.injEq] at h
  obtain ⟨b1, e1, p1⟩ := read_fileng_ok _ _ _ _ h1
  obtain ⟨b2, e2, p2⟩ := read_unpack_ok _ _ _ _ h2
  obtain ⟨b3, e3, p3⟩ := read_unpack_ok _ _ _ _ h3
  obtain ⟨b4, e4, p4⟩ := read_unpack_ok _ _ _ _ h4
  rw [← h.2]
  refine ⟨?_, ?_, ?_⟩ <;> simp_all

/-- A successful field decode needs (and ends exactly) 24 bytes past the
starting position. -/
theorem read_ospf_fields_ok_length (c : ByteCursor) (r : FieldRecord)
    (c' : ByteCursor) (h : read_ospf_fields c = .ok (r, c')) :
    c.position + 24 ≤ c.buffer.length ∧ c'.buffer = c.buffer ∧
      c'.position = c.position + 24 := by
  unfold read_ospf_fields at h
  split at h
  · simp at h
  rename_i v1 c1 h1
  split at h
  · simp at h
  rename_i v2 c2 h2
  split at h
  · simp at h
  rename_i v3 c3 h3
  split at h
  · simp at h
  rename_i v4 c4 h4
  split at h
  · simp at h
  rename_i v5 c5 h5
  split at h
  · simp at h
  rename_i v6 c6 h6
  split at h
  · simp at h
  rename_i v7 c7 h7
  obtain ⟨b1, e1, p1⟩ := read_unpack_ok _ _ _ _ h1
  obtain ⟨b2, e2, p2⟩ := read_unpack_ok _ _ _ _ h2
  obtain ⟨b3, e3, p3⟩ := read_unpack_ok _ _ _ _ h3
  obtain ⟨b4, e4, p4⟩ := read_id_numbers_ok _ _ _ h4
  obtain ⟨b5, e5, p5⟩ := read_id_numbers_ok _ _ _ h5
  obtain ⟨b6, e6, p6⟩ := read_fileng_ok _ _ _ _ h6
  obtain ⟨b7, e7, p7⟩ := read_unpack_ok _ _ _ _ h7
  split at h
  · split at h
    · simp at h
    rename_i auth c8 h8
    obtain ⟨b8, e8, p8⟩ := read_encrypt_auth_ok _ _ _ h8
    simp only [Except.ok.injEq, Prod.mk.injEq] at h
    rw [← h.2]
    refine ⟨?_, ?_, ?_⟩ <;> simp_all
  · split at h
    · simp at h
    rename_i auth c8 h8
    obtain ⟨b8, e8, p8⟩ := read_fileng_ok _ _ _ _ h8
    simp only [Except.ok.injEq, Prod.mk.injEq] at h
    rw [← h.2]
    refine ⟨?_, ?_, ?_⟩ <;> simp_all

/-! ## Code-table lemmas -/

theorem TYPE_eq_none (c : Nat) (hc : c ∉ ([1, 2, 3, 4, 5] : List Nat)) :
    TYPE c = none := by
  rcases c with _ | _ | _ | _ | _ | _ | n <;> first | rfl | simp_all

theorem AUTH_eq_none (c : Nat) (hc : c ∉ ([0, 1, 2] : List Nat)) :
    AUTH c = none := by
  rcases c with _ | _ | _ | n <;> first | rfl | simp_all

/-- Every name in the `AUTH` table is a non-empty string (so Python's `or`
keeps it) and differs from the fallback `"Reserved"`. -/
theorem AUTH_hit_kept (c : Nat) (s : String) (h : AUTH c = some s) :
    pyOrString (some s) "Reserved" = s ∧ s ≠ "Reserved" := by
  rcases c with _ | _ | _ | n <;> simp [AUTH] at h <;> subst h <;>
    exact ⟨by decide, by decide⟩

/-! ## Record-access lemmas -/

theorem getField_append_of_some (k : String) (v : FieldValue)
    (r e : FieldRecord) (h : getField k r = some v) :
    getField k (r ++ e) = some v := by
  induction r with
  | nil => simp [getField] at h
  | cons p rest ih =>
      obtain ⟨k', v'⟩ := p
      by_cases hk : k' = k <;> simp [getField, hk] at h ⊢
      · exact h
      · exact ih h

/-- The full pipeline on a buffer of at least 24 bytes: field record as in
`ospfRecord`, then the layer-chain step on the cursor left at position 24. -/
theorem read_ospf_eq (buf : List Nat) (h : 24 ≤ buf.length) :
    read_ospf ⟨buf, 0⟩ = .ok (read_next_layer (ospfRecord buf) ⟨buf, 24⟩) := by
  simp [read_ospf, read_ospf_fields_eq buf h]

/-- A named field present in the 24-byte header record survives the
layer-chain step, which only ever appends. -/
theorem decodedField_eq (k : String) (v : FieldValue) (buf : List Nat)
    (h : 24 ≤ buf.length) (hk : getField k (ospfRecord buf) = some v) :
    decodedField k buf = some v := by
  simp only [decodedField, decodeRecord, read_ospf_eq buf h, read_next_layer]
  split <;> simp [hk, getField_append_of_some _ _ _ _ hk]

/-! ## Claim theorems -/

/-- Claim C1 (counterexample): on a header whose packet-type byte is the
unmapped code 7, the decoded `type` field is the `None` value stored by
`TYPE.get`, not the raw code 7 the claim promises. -/
theorem ospf_type_passthrough_cex :
    decodedField "type" bufType7 = some FieldValue.pynone ∧
    decodedField "type" bufType7 ≠ some (FieldValue.uint 7) := by
  have h1 : decodedField "type" bufType7 = some FieldValue.pynone := by rfl
  refine ⟨h1, ?_⟩
  rw [h1]
  intro hc
  injection hc with hc'
  exact FieldValue.noConfusion hc'

/-- Claim C1 (amended): for every at-least-24-byte input whose 1-byte
packet-type code is not a key of `TYPE`, the decode still succeeds and the
record's `type` field is the `None` marker that `TYPE.get` returns for a
miss — the raw code is dropped, not passed through. -/
theorem ospf_type_unmapped_is_none (buf : List Nat) (h : 24 ≤ buf.length)
    (ht : uintAt buf 1 1 ∉ ([1, 2, 3, 4, 5] : List Nat)) :
    decodedField "type" buf = some FieldValue.pynone := by
  apply decodedField_eq _ _ _ h
  simp [ospfRecord, getField, TYPE_eq_none _ ht, optionToField]

/-- Claim C1 (witness): the amended statement at the concrete type-7
buffer. -/
theorem ospf_type_unmapped_is_none_witness :
    decodedField "type" bufType7 = some FieldValue.pynone :=
  ospf_type_unmapped_is_none bufType7 (by decide) (by decide)

/-- Claim C2: for every input of at least 24 bytes, the shape of `auth` is
a function of the raw 2-byte code at offsets 14-15 alone: code 2 yields the
nested record with exactly the keys `resv` (2 raw bytes), `key_id` (1-byte
uint), `len` (1-byte uint), `seq` (4-byte uint); any other code yields the
8 raw trailing bytes. -/
theorem ospf_auth_variant_dispatch (buf : List Nat) (h : 24 ≤ buf.length) :
    decodedField "auth" buf =
      some (if uintAt buf 14 2 = 2 then
              FieldValue.record
                [("resv", FieldValue.bytes (sliceAt buf 16 2)),
                 ("key_id", FieldValue.uint (uintAt buf 18 1)),
                 ("len", FieldValue.uint (uintAt buf 19 1)),
                 ("seq", FieldValue.uint (uintAt buf 20 4))]
            else FieldValue.bytes (sliceAt buf 16 8)) := by
  apply decodedField_eq _ _ _ h
  simp [ospfRecord, getField, ospfAuthField]

/-- Claim C2 (witness): the cryptographic variant at the concrete autype-2
buffer. -/
theorem ospf_auth_variant_dispatch_witness :
    decodedField "auth" buf24crypto =
      some (FieldValue.record
        [("resv", FieldValue.bytes [0, 0]),
         ("key_id", FieldValue.uint 5),
         ("len", FieldValue.uint 16),
         ("seq", FieldValue.uint 1)]) :=
  (ospf_auth_variant_dispatch buf24crypto (by decide)).trans rfl

/-- Claim C3: every 2-byte authentication-type code outside the table
keys 0, 1 and 2 resolves `autype` to the literal string `"Reserved"`, and
the decode still takes the non-cryptographic branch, leaving `auth` the
8 raw trailing bytes. -/
theorem ospf_autype_reserved_branch (buf : List Nat) (h : 24 ≤ buf.length)
    (ha : uintAt buf 14 2 ∉ ([0, 1, 2] : List Nat)) :
    decodedField "autype" buf = some (FieldValue.str "Reserved") ∧
    decodedField "auth" buf = some (FieldValue.bytes (sliceAt buf 16 8)) := by
  have hA : AUTH (uintAt buf 14 2) = none := AUTH_eq_none _ ha
  have h2 : uintAt buf 14 2 ≠ 2 := by
    intro hh
    exact ha (by simp [hh])
  constructor
  · apply decodedField_eq _ _ _ h
    simp [ospfRecord, getField, hA, pyOrString]
  · apply decodedField_eq _ _ _ h
    simp [ospfRecord, getField, ospfAuthField, h2]

/-- Claim C3 (witness): concrete buffer with authentication-type code 99. -/
theorem ospf_autype_reserved_branch_witness :
    decodedField "autype" bufAu99 = some (FieldValue.str "Reserved") ∧
    decodedField "auth" bufAu99 =
      some (FieldValue.bytes [222, 173, 190, 239, 202, 254, 186, 190]) := by
  have h := ospf_autype_reserved_branch bufAu99 (by decide) (by decide)
  exact ⟨h.1, h.2.trans rfl⟩

/-- Claim C4: for every successfully decoded buffer, the `length` the
dissector reports is the literal 24, and the `length`/`__len__` properties
are the constant 24 on every record whatsoever — independent of the
sender-controlled `len` field inside the record. -/
theorem ospf_length_constant_24 (buf : List Nat) (h : 24 ≤ buf.length) :
    reportedLength buf = some 24 ∧
    ∀ o : OSPF, o.length = 24 ∧ o.lenOp = 24 := by
  constructor
  · rcases hnl : read_next_layer (ospfRecord buf) ⟨buf, 24⟩ with ⟨r', c'⟩
    simp [reportedLength, OSPF.init, read_ospf_eq buf h, hnl, OSPF.length]
  · intro o
    exact ⟨rfl, rfl⟩

/-- Claim C4 (witness): the section 8 scenario reports length 24. -/
theorem ospf_length_constant_24_witness :
    reportedLength buf24null = some 24 :=
  (ospf_length_constant_24 buf24null (by decide)).1

/-- Claim C5: on every input of at least 24 bytes, the field decode leaves
the cursor exactly 24 bytes past the start in both variants, and the
cryptographic sub-reader always advances exactly the 8 trailing bytes
(2 + 1 + 1 + 4). -/
theorem ospf_fields_consume_24 (buf : List Nat) (h : 24 ≤ buf.length) :
    fieldsConsumed buf = some 24 ∧
    ∀ (c : ByteCursor) (r : FieldRecord) (c' : ByteCursor),
      read_encrypt_auth c = .ok (r, c') → c'.position = c.position + 8 := by
  constructor
  · simp [fieldsConsumed, read_ospf_fields_eq buf h]
  · intro c r c' hc
    exact (read_encrypt_auth_ok c r c' hc).2.2

/-- Claim C5 (witness): the cryptographic-variant buffer consumes 24. -/
theorem ospf_fields_consume_24_witness :
    fieldsConsumed buf24crypto = some 24 :=
  (ospf_fields_consume_24 buf24crypto (by decide)).1

/-- Claim C6: every buffer shorter than 24 bytes makes the decode fail
with `TruncatedInput`; no record is produced on any such input —
the decode is all-or-nothing. -/
theorem ospf_truncated_all_or_nothing (buf : List Nat) (h : buf.length < 24) :
    read_ospf ⟨buf, 0⟩ = .error DecodeError.TruncatedInput ∧
    decodeRecord buf = none ∧
    OSPF.init ⟨buf, 0⟩ = .error DecodeError.TruncatedInput := by
  have hmain : read_ospf ⟨buf, 0⟩ = .error DecodeError.TruncatedInput := by
    cases hr : read_ospf_fields ⟨buf, 0⟩ with
    | ok rc =>
        obtain ⟨r, c'⟩ := rc
        have hlen := (read_ospf_fields_ok_length _ _ _ hr).1
        simp at hlen
        omega
    | error e =>
        cases e
        simp [read_ospf, hr]
  exact ⟨hmain, by simp [decodeRecord, hmain], by simp [OSPF.init, hmain]⟩

/-- Claim C6 (witness): the 10-byte truncated buffer. -/
theorem ospf_truncated_all_or_nothing_witness :
    read_ospf ⟨buf10, 0⟩ = .error DecodeError.TruncatedInput ∧
    decodeRecord buf10 = none ∧
    OSPF.init ⟨buf10, 0⟩ = .error DecodeError.TruncatedInput :=
  ospf_truncated_all_or_nothing buf10 (by decide)

/-- Claim C7 (counterexample): on a 25-byte buffer the layer-chain step
appends the trailing byte under a ninth top-level slot, so the record's
keys are not exactly the eight the claim lists. -/
theorem ospf_record_keys_cex :
    decodedKeys buf25 =
      some ["version", "type", "len", "router_id", "area_id", "chksum",
            "autype", "auth", "next_layer"] ∧
    (["version", "type", "len", "router_id", "area_id", "chksum",
      "autype", "auth", "next_layer"] : List String) ≠
      ["version", "type", "len", "router_id", "area_id", "chksum",
       "autype", "auth"] :=
  ⟨rfl, by decide⟩

/-- Claim C7 (amended): on every successful decode the record's keys are
exactly `version, type, len, router_id, area_id, chksum, autype, auth` in
this order, followed by one extra trailing slot exactly when bytes remain
beyond the 24-byte header (the layer chain's raw-payload capture). -/
theorem ospf_record_keys_exact (buf : List Nat) (h : 24 ≤ buf.length) :
    decodedKeys buf =
      some (["version", "type", "len", "router_id", "area_id", "chksum",
             "autype", "auth"] ++
            if buf.length = 24 then [] else ["next_layer"]) := by
  by_cases hb : buf.length = 24
  · simp [decodedKeys, decodeRecord, read_ospf_eq buf h, read_next_layer,
          ByteCursor.remaining, hb, recordKeys, ospfRecord]
  · have hne : ¬ (buf.length - 24 = 0) := by omega
    simp [decodedKeys, decodeRecord, read_ospf_eq buf h, read_next_layer,
          ByteCursor.remaining, hne, hb, recordKeys, ospfRecord]

/-- Claim C7 (witness): the exactly-24-byte scenario yields exactly the
eight keys in order. -/
theorem ospf_record_keys_exact_witness :
    decodedKeys buf24null =
      some ["version", "type", "len", "router_id", "area_id", "chksum",
            "autype", "auth"] :=
  (ospf_record_keys_exact buf24null (by decide)).trans rfl

/-- Claim C8: `router_id` and `area_id` are the dotted-quad rendering of
their 4 bytes; on any 4 octets the rendering is the period-joined decimal
strings, and the raw bytes 192·0·2·1 render exactly to `"192.0.2.1"`. -/
theorem ospf_dotted_quad_render (buf : List Nat) (h : 24 ≤ buf.length) :
    decodedField "router_id" buf = some (FieldValue.str (dottedQuadAt buf 4)) ∧
    decodedField "area_id" buf = some (FieldValue.str (dottedQuadAt buf 8)) ∧
    (∀ a b c d : Nat, dottedQuadAt [a, b, c, d] 0 =
      toString a ++ "." ++ toString b ++ "." ++ toString c ++ "." ++ toString d) ∧
    dottedQuadAt [192, 0, 2, 1] 0 = "192.0.2.1" := by
  refine ⟨?_, ?_, ?_, by rfl⟩
  · apply decodedField_eq _ _ _ h
    simp [ospfRecord, getField]
  · apply decodedField_eq _ _ _ h
    simp [ospfRecord, getField]
  · intro a b c d
    simp [dottedQuadAt, sliceAt, pyJoin, String.append_assoc]

/-- Claim C8 (witness): the section 8 scenario round-trips the bytes
192·0·2·1 to the string form. -/
theorem ospf_dotted_quad_render_witness :
    decodedField "router_id" buf24null = some (FieldValue.str "192.0.2.1") ∧
    decodedField "area_id" buf24null = some (FieldValue.str "0.0.0.1") := by
  have h := ospf_dotted_quad_render buf24null (by decide)
  exact ⟨h.1.trans rfl, h.2.1.trans rfl⟩

/-- Claim C9: decoding depends on the buffer contents alone — two runs
over equal buffers, each on a fresh cursor, produce equal results at every
level of the pipeline (there is no hidden state across calls). -/
theorem ospf_decode_deterministic (b1 b2 : List Nat) (h : b1 = b2) :
    read_ospf ⟨b1, 0⟩ = read_ospf ⟨b2, 0⟩ ∧
    decodeRecord b1 = decodeRecord b2 ∧
    OSPF.init ⟨b1, 0⟩ = OSPF.init ⟨b2, 0⟩ := by
  subst h
  exact ⟨rfl, rfl, rfl⟩

/-- Claim C9 (witness): two runs over the section 8 scenario agree. -/
theorem ospf_decode_deterministic_witness :
    read_ospf ⟨buf24null, 0⟩ = read_ospf ⟨buf24null, 0⟩ ∧
    decodeRecord buf24null = decodeRecord buf24null ∧
    OSPF.init ⟨buf24null, 0⟩ = OSPF.init ⟨buf24null, 0⟩ :=
  ospf_decode_deterministic buf24null buf24null rfl

/-- Claim C10: any authentication-type code the `AUTH` table maps resolves
`autype` to the mapped name, never the fallback `"Reserved"` — the
truthiness-based `or` keeps every table value because each one is a
non-empty string. -/
theorem ospf_autype_table_hit (buf : List Nat) (h : 24 ≤ buf.length)
    (s : String) (hs : AUTH (uintAt buf 14 2) = some s) :
    decodedField "autype" buf = some (FieldValue.str s) ∧ s ≠ "Reserved" := by
  obtain ⟨hkeep, hne⟩ := AUTH_hit_kept _ _ hs
  refine ⟨?_, hne⟩
  apply decodedField_eq _ _ _ h
  simp [ospfRecord, getField, hs, hkeep]

/-- Claim C10 (witness): code 0 yields exactly `"Null Authentication"`. -/
theorem ospf_autype_table_hit_witness :
    decodedField "autype" buf24null =
      some (FieldValue.str "Null Authentication") ∧
    "Null Authentication" ≠ "Reserved" :=
  ospf_autype_table_hit buf24null (by decide) "Null Authentication" (by decide)
